import Mathlib

/-!
Verification of the StreamsForLovers generation-and-playback orchestration
engine.  The definitions below are a shallow embedding of the Python source:

* `src/suno_api_client.py` — budget gate (`_check_budget`, `_track_usage`,
  `_reset_daily_usage_if_needed`, `get_usage_stats`), the `generate_music`
  control flow, result processing (`_process_generation_result`,
  `_download_audio`) and prompt enhancement (`_enhance_city_pop_prompt`).
* `src/main.py` — chat command parsing (`_process_chat_message`) and the
  status monitoring loop body (`_status_monitoring_loop`).
* `src/background_generator.py` — the video job poll loop
  (`_wait_for_generation`) and mood prompt construction
  (`create_mood_background`).
* `src/thunder_image_client.py` — the image job poll loop
  (`_wait_for_completion`).

Money amounts are modelled as exact rationals (the Python source uses
floats; every scenario stated below involves sums of 0.01 that are exact
in binary floating point as well, since 0.01 + 0.01 is an exact doubling
and the binary representations of 0.01 and 0.02 share a mantissa).
Calendar dates are modelled as natural numbers (a day index); wall-clock
hours as naturals.  External I/O (HTTP calls, downloads) is modelled by
explicit outcome parameters; a Python exception that a handler catches is
one of those outcomes.
-/

namespace StreamsForLovers

/-! ## Budget gate (suno_api_client.py) -/

/-- The `self.daily_usage` dict: generation count, estimated cost and the
date the counter applies to. -/
structure UsageCounter where
  generations : Nat
  cost_estimate : ℚ
  last_reset : Nat
deriving DecidableEq, Repr

/-- The counter as first constructed in `SunoAPIClient.__init__`. -/
def initUsage (today : Nat) : UsageCounter :=
  { generations := 0, cost_estimate := 0, last_reset := today }

/-- `self.cost_per_generation = 0.01`, fixed in `__init__`. -/
def costPerGeneration : ℚ := 1 / 100

/-- `_reset_daily_usage_if_needed`: replace the counter by a fresh one when
the stored date differs from the current date. -/
def resetDailyUsageIfNeeded (today : Nat) (s : UsageCounter) : UsageCounter :=
  if s.last_reset ≠ today then
    { generations := 0, cost_estimate := 0, last_reset := today }
  else s

/-- `_check_budget`: lazily reset, then admit iff the cumulative cost is
strictly below the daily budget.  Returns the decision together with the
counter state after the lazy reset (the Python method mutates
`self.daily_usage` in place). -/
def checkBudget (dailyBudget : ℚ) (today : Nat) (s : UsageCounter) :
    Bool × UsageCounter :=
  let s1 := resetDailyUsageIfNeeded today s
  (decide (s1.cost_estimate < dailyBudget), s1)

/-- `_track_usage`: one more generation, one more per-generation cost. -/
def trackUsage (s : UsageCounter) : UsageCounter :=
  { s with
    generations := s.generations + 1
    cost_estimate := s.cost_estimate + costPerGeneration }

/-! ## Result processing (suno_api_client.py) -/

/-- The JSON body of a 200 response from the `/generate` endpoint, reduced
to the fields `_process_generation_result` reads. `none` models a missing
key. -/
structure SunoResponse where
  audio_url : Option String
  audio : Option String
  url : Option String
  title : Option String
  duration : Option Nat
  id : Option String
  tags : List String
  lyric : Option String
deriving DecidableEq, Repr

/-! ### Python string primitives

The Python string methods the source uses (`strip`, `lower`, `upper`,
`title`, `split`, `join`, indexing) are modelled by structural recursion
over the character list of a `String`, following their Python semantics. -/

/-- Python `str.strip()` on a character list: drop whitespace from both
ends. -/
def pyStripChars (cs : List Char) : List Char :=
  ((cs.dropWhile Char.isWhitespace).reverse.dropWhile Char.isWhitespace).reverse

/-- Python `str.strip()`. -/
def pyStrip (s : String) : String := ⟨pyStripChars s.data⟩

/-- Python `str.lower()` (ASCII case folding, which is all the source
feeds it). -/
def pyLower (s : String) : String := ⟨s.data.map Char.toLower⟩

/-- Python `str.upper()`. -/
def pyUpper (s : String) : String := ⟨s.data.map Char.toUpper⟩

/-- Python `str.title()` for a single-word string: first character
uppercased, the rest lowercased. -/
def pyTitleWord (s : String) : String :=
  match s.data with
  | [] => ""
  | c :: cs => ⟨Char.toUpper c :: cs.map Char.toLower⟩

/-- Worker for Python `str.split()` with no separator: split on
whitespace runs, dropping empty pieces.  `acc` is the current word,
reversed. -/
def pySplitWsAux : List Char → List Char → List String
  | [], acc => if acc.isEmpty then [] else [⟨acc.reverse⟩]
  | c :: cs, acc =>
      if c.isWhitespace then
        if acc.isEmpty then pySplitWsAux cs []
        else ⟨acc.reverse⟩ :: pySplitWsAux cs []
      else pySplitWsAux cs (c :: acc)

/-- Python `str.split()` with no separator. -/
def pySplitWs (s : String) : List String := pySplitWsAux s.data []

/-- Python `' '.join(words)`. -/
def pyJoinSpace : List String → String
  | [] => ""
  | [w] => w
  | w :: ws => w ++ " " ++ pyJoinSpace ws

/-- Python truthiness of an optional string: `None` and `""` are falsy. -/
def strTruthy : Option String → Bool
  | none => false
  | some s => decide (s ≠ "")

/-- Python `a or b` on optional strings. -/
def pyOr (a b : Option String) : Option String :=
  if strTruthy a then a else b

/-- `result.get('audio_url') or result.get('audio') or result.get('url')`. -/
def getAudioUrl (r : SunoResponse) : Option String :=
  pyOr (pyOr r.audio_url r.audio) r.url


/-- The dictionary `generate_music` hands back to its caller, reduced to
the fields built in `_process_generation_result`. -/
structure MusicResult where
  filename : String
  title : String
  prompt : String
  mood : String
  duration : Nat
  suno_id : Option String
  tags : List String
  lyrics : String
deriving DecidableEq, Repr

/-- `_download_audio`: write the asset to `music/cityPop_<timestamp>.mp3`
and return that path when the asset fetch returns HTTP 200; `None` on any
failure.  `fetchOk` is the outcome of the HTTP GET for the asset bytes
(false also covers an exception during download). -/
def downloadAudio (fetchOk : Bool) (timestamp : String) : Option String :=
  if fetchOk then some ("music/cityPop_" ++ timestamp ++ ".mp3") else none

/-- `_process_generation_result`: require an audio URL, download it, and
only then build the result dictionary; every failure path returns `None`. -/
def processGenerationResult (r : SunoResponse) (fetchOk : Bool)
    (timestamp prompt mood : String) : Option MusicResult :=
  if strTruthy (getAudioUrl r) then
    match downloadAudio fetchOk timestamp with
    | some fn =>
        some { filename := fn
               title := r.title.getD ("City Pop " ++ pyTitleWord mood ++ " Track")
               prompt := prompt
               mood := mood
               duration := r.duration.getD 180
               suno_id := r.id
               tags := r.tags
               lyrics := r.lyric.getD "" }
    | none => none
  else none

/-! ## Prompt enhancement (suno_api_client.py) -/

/-- `self.city_pop_templates` from `__init__`, as an association list. -/
def cityPopTemplates : List (String × List String) :=
  [ ("chill",
     [ "Relaxing city pop with smooth bass and dreamy synths, perfect for studying"
     , "Mellow lo-fi city pop with gentle guitar and soft vocals, nostalgic vibes"
     , "Chill city pop instrumental with warm piano and ambient textures" ])
  , ("energetic",
     [ "Upbeat city pop with funky bass and bright synths, retro energy"
     , "Energetic city pop with driving drums and catchy melodies, 80s inspired"
     , "Vibrant city pop with electric guitar and danceable rhythm" ])
  , ("romantic",
     [ "Romantic city pop with smooth saxophone and gentle vocals, sunset vibes"
     , "Dreamy city pop ballad with soft synths and heartfelt melody"
     , "Intimate city pop with warm vocals and tender instrumental" ])
  , ("melancholic",
     [ "Melancholic city pop with minor chords and reflective mood, rainy night"
     , "Bittersweet city pop with emotional vocals and wistful melody"
     , "Nostalgic city pop with gentle melancholy and urban atmosphere" ])
  , ("study",
     [ "Focus-friendly city pop instrumental, minimal vocals, concentration vibes"
     , "Study session city pop with repetitive, non-distracting melody"
     , "Ambient city pop perfect for background work, gentle and flowing" ]) ]

/-- The time-of-day suffix appended at the end of
`_enhance_city_pop_prompt` (`hour` is `datetime.now().hour`). -/
def timeSuffix (hour : Nat) : String :=
  if 22 ≤ hour ∨ hour < 6 then ", late night vibes, intimate atmosphere"
  else if 6 ≤ hour ∧ hour < 12 then ", morning energy, fresh start feeling"
  else if 12 ≤ hour ∧ hour < 18 then ", afternoon warmth, steady rhythm"
  else ", evening glow, winding down"

/-- `_enhance_city_pop_prompt`: pick the first template of the requested
mood, falling back to the first `chill` template for unknown moods,
prepend it to a non-empty user prompt, then append the genre tags and a
time-of-day suffix. -/
def enhanceCityPopPrompt (basePrompt mood : String) (hour : Nat) : String :=
  let mood_template :=
    match cityPopTemplates.lookup mood with
    | some templates => templates.headD ""
    | none => ((cityPopTemplates.lookup "chill").getD []).headD ""
  let enhanced :=
    if pyStripChars basePrompt.data ≠ [] then mood_template ++ ", " ++ basePrompt
    else mood_template
  enhanced ++ ", city pop genre, retro aesthetic, high quality production"
    ++ timeSuffix hour

/-! ## generate_music control flow (suno_api_client.py) -/

/-- Outcome of one attempted `POST /generate`: `preError` covers a non-200
status, a timeout, or any exception raised before the response is read
(no usage is tracked on those paths); `ok` is a 200 response together with
the outcome of the subsequent asset download. -/
inductive GenerateOutcome where
  | preError : GenerateOutcome
  | ok (response : SunoResponse) (fetchOk : Bool) : GenerateOutcome
deriving DecidableEq, Repr

/-- `generate_music`: check the budget (with lazy reset); if rejected or if
the HTTP call fails, return `None`; on a 200 response, track usage and then
process the result (which may itself still return `None`).  Returns the
public result together with the final usage counter. -/
def generateMusic (dailyBudget : ℚ) (today : Nat) (outcome : GenerateOutcome)
    (timestamp prompt mood : String) (hour : Nat) (s : UsageCounter) :
    Option MusicResult × UsageCounter :=
  let (admitted, s1) := checkBudget dailyBudget today s
  if admitted then
    match outcome with
    | .preError => (none, s1)
    | .ok r fetchOk =>
        let s2 := trackUsage s1
        (processGenerationResult r fetchOk timestamp
          (enhanceCityPopPrompt prompt mood hour) mood, s2)
  else (none, s1)

/-- One `generate_music` call in a history: the day it happens on, the
backend outcome, and the arguments of the call. -/
structure GenEvent where
  today : Nat
  outcome : GenerateOutcome
  timestamp : String
  prompt : String
  mood : String
  hour : Nat
deriving Repr

/-- The usage counter after a sequence of `generate_music` calls. -/
def runGenerations (dailyBudget : ℚ) (events : List GenEvent)
    (s : UsageCounter) : UsageCounter :=
  events.foldl
    (fun st e =>
      (generateMusic dailyBudget e.today e.outcome e.timestamp e.prompt
        e.mood e.hour st).2)
    s

/-! ## get_usage_stats (suno_api_client.py) -/

/-- Python `int()` on a rational: truncation toward zero. -/
def ratTrunc (q : ℚ) : ℤ :=
  if q < 0 then -Rat.floor (-q) else Rat.floor q

/-- The dictionary returned by `get_usage_stats`. -/
structure UsageStats where
  daily_generations : Nat
  daily_cost : ℚ
  budget_remaining : ℚ
  generations_remaining : ℤ
  current_model : String
deriving DecidableEq, Repr

/-- `get_usage_stats`: lazy reset, then report the counter together with
the remaining budget and the (clamped) number of generations it buys. -/
def getUsageStats (dailyBudget : ℚ) (currentModel : String) (today : Nat)
    (s : UsageCounter) : UsageStats :=
  let s1 := resetDailyUsageIfNeeded today s
  let budget_remaining := dailyBudget - s1.cost_estimate
  let generations_remaining := ratTrunc (budget_remaining / costPerGeneration)
  { daily_generations := s1.generations
    daily_cost := s1.cost_estimate
    budget_remaining := budget_remaining
    generations_remaining := max 0 generations_remaining
    current_model := currentModel }

/-! ## Chat command parsing (main.py, `_process_chat_message`) -/

/-- The typed request a recognised chat command enqueues: a user prompt
generation request, a mood generation request, or a vote. -/
inductive ChatCommand where
  | genRequest (promptText author : String) : ChatCommand
  | moodRequest (mood author : String) : ChatCommand
  | vote (token author : String) : ChatCommand
deriving DecidableEq, Repr

/-- The runtime error processing can raise (`command[0]` on an empty
list). -/
inductive PyError where
  | indexError : PyError
deriving DecidableEq, Repr

instance {ε α : Type} [DecidableEq ε] [DecidableEq α] :
    DecidableEq (Except ε α) := fun x y =>
  match x, y with
  | .ok a, .ok b =>
      match decEq a b with
      | isTrue h => isTrue (h ▸ rfl)
      | isFalse h => isFalse fun hh => h (Except.ok.inj hh)
  | .error a, .error b =>
      match decEq a b with
      | isTrue h => isTrue (h ▸ rfl)
      | isFalse h => isFalse fun hh => h (Except.error.inj hh)
  | .ok _, .error _ => isFalse fun hh => Except.noConfusion hh
  | .error _, .ok _ => isFalse fun hh => Except.noConfusion hh

/-- `_process_chat_message`, as a function of the message text and author:
strip the text, require the `!` prefix, lowercase and split the rest, and
dispatch on the verb.  `command[0]` is evaluated before the length guard,
so an empty command list raises `IndexError`.  Unrecognised verbs and
recognised verbs missing their argument yield no command. -/
def processChatMessage (text author : String) :
    Except PyError (Option ChatCommand) :=
  match pyStripChars text.data with
  | '!' :: rest =>
      match pySplitWsAux (rest.map Char.toLower) [] with
      | [] => .error .indexError
      | verb :: args =>
          if verb = "generate" ∧ 1 ≤ args.length then
            .ok (some (.genRequest (pyJoinSpace args) author))
          else if verb = "mood" ∧ 1 ≤ args.length then
            .ok (some (.moodRequest (pyJoinSpace args) author))
          else if verb = "vote" ∧ 1 ≤ args.length then
            .ok (some (.vote (pyUpper (args.headD "")) author))
          else .ok none
  | _ => .ok none

/-! ## Status monitoring loop (main.py, `_status_monitoring_loop`) -/

/-- The status dictionary one loop iteration logs. -/
structure StatusSnapshot where
  queue_size : Nat
  generation_requests : Nat
  stream_status : String
  uptime : String
deriving DecidableEq, Repr

/-- One iteration of the status monitoring loop, parametrised by the
shared state `σ` and by the three status sources read from it (each of
which may raise).  The whole snapshot is built inside one `try` block:
the first failing source aborts it and the handler logs and sleeps, so
the iteration emits either a full snapshot or nothing.  The returned
state is the input state (the body performs no writes), and the returned
`Bool` is whether the loop keeps running (both paths continue). -/
def statusLoopIteration {σ : Type} (getQueueSize getPending : σ → Except Unit Nat)
    (getStream : σ → Except Unit String) (uptime : String) (st : σ) :
    σ × Option StatusSnapshot × Bool :=
  match getQueueSize st, getPending st, getStream st with
  | .ok q, .ok p, .ok sst =>
      (st, some { queue_size := q, generation_requests := p
                  stream_status := sst, uptime := uptime }, true)
  | _, _, _ => (st, none, true)

/-! ## Video job poll loop (background_generator.py, `_wait_for_generation`) -/

/-- What one status poll of a video generation job observes.
`processing` is any 200 response whose status is neither `completed` nor
`failed`; `httpError` a non-200 response; `exc` an exception during the
poll.  All three non-terminal cases sleep 10 seconds. -/
inductive VideoPoll where
  | completed (result : String) : VideoPoll
  | failed : VideoPoll
  | processing : VideoPoll
  | httpError : VideoPoll
  | exc : VideoPoll
deriving DecidableEq, Repr

/-- `_wait_for_generation`: poll while the elapsed time is below
`maxWait`; explicit completion returns the payload, explicit failure
returns `None`, anything else sleeps 10 seconds and re-polls; leaving the
loop is the timeout and returns `None`.  `backend k` is what the `k`-th
poll observes; the result is paired with the elapsed time at return. -/
def waitForGeneration (backend : Nat → VideoPoll) (maxWait : Nat)
    (k elapsed : Nat) : Option String × Nat :=
  if _h : elapsed < maxWait then
    match backend k with
    | .completed r => (some r, elapsed)
    | .failed => (none, elapsed)
    | _ => waitForGeneration backend maxWait (k + 1) (elapsed + 10)
  else (none, elapsed)
termination_by maxWait - elapsed
decreasing_by omega

/-! ## Image job poll loop (thunder_image_client.py, `_wait_for_completion`) -/

/-- What one iteration of the image poll loop observes.  `imageReady` is
the successful path (job left the queue, appears in history with an image,
and the image fetch returned 200; the loop returns the bytes).  `pending`
is every other non-exception path (still queued, non-200 queue or history
response, no image yet, failed image fetch): the loop sleeps 2 seconds.
`exc` is an exception during the iteration: the loop sleeps 5 seconds.
This backend has no explicit failure status. -/
inductive ImagePoll where
  | imageReady (data : String) : ImagePoll
  | pending : ImagePoll
  | exc : ImagePoll
deriving DecidableEq, Repr

/-- `_wait_for_completion`: poll while the elapsed time is below
`maxWait`; success returns the image data, otherwise sleep (2 s normally,
5 s after an exception) and re-poll; leaving the loop is the timeout and
returns `None`. -/
def waitForCompletion (backend : Nat → ImagePoll) (maxWait : Nat)
    (k elapsed : Nat) : Option String × Nat :=
  if _h : elapsed < maxWait then
    match backend k with
    | .imageReady d => (some d, elapsed)
    | .pending => waitForCompletion backend maxWait (k + 1) (elapsed + 2)
    | .exc => waitForCompletion backend maxWait (k + 1) (elapsed + 5)
  else (none, elapsed)
termination_by maxWait - elapsed
decreasing_by all_goals omega

/-! ## Mood background prompts (background_generator.py) -/

/-- `self.mood_prompts` from `BackgroundGenerator.__init__`. -/
def moodPrompts : List (String × List String) :=
  [ ("chill",
     [ "flowing abstract waves in soft pastels, gentle movement"
     , "minimalist geometric shapes floating peacefully"
     , "soft cloud formations drifting slowly across gradient sky" ])
  , ("energetic",
     [ "dynamic particle systems with vibrant colors"
     , "fast-moving geometric patterns in bright neon"
     , "pulsing light effects with rhythmic energy" ])
  , ("ambient",
     [ "ethereal mist floating in space, very slow movement"
     , "subtle color gradients slowly shifting and blending"
     , "zen-like water ripples in monochrome" ])
  , ("jazz",
     [ "smooth smoke swirls with warm golden tones"
     , "vintage vinyl record spinning with abstract elements"
     , "art deco patterns flowing with musical rhythm" ])
  , ("electronic",
     [ "digital grid patterns with neon accents"
     , "cyberpunk-inspired geometric animations"
     , "holographic interfaces with futuristic elements" ])
  , ("nature",
     [ "peaceful forest with gentle leaf movement"
     , "calm ocean waves under sunset sky"
     , "flowing river through misty mountains" ])
  , ("study",
     [ "library atmosphere with floating books and papers"
     , "desk setup with gentle lighting and coffee steam"
     , "cozy room with soft lamp glow and plants" ])
  , ("rain",
     [ "gentle raindrops on window with city lights"
     , "peaceful rainfall in forest with soft lighting"
     , "water droplets creating ripples on calm surface" ]) ]

/-- The fallback base prompt `create_mood_background` uses when the mood
is not in `mood_prompts`. -/
def defaultBackgroundPrompt : String :=
  "abstract flowing patterns with gentle movement"

/-- The prompt `create_mood_background` builds before calling
`generate_background`: the first prompt of a known mood, or the fixed
default for an unknown mood, with the user request appended when it is a
truthy string. -/
def createMoodBackgroundPrompt (mood : String) (userRequest : Option String) :
    String :=
  let base :=
    match moodPrompts.lookup mood with
    | some prompts => prompts.headD ""
    | none => defaultBackgroundPrompt
  if strTruthy userRequest then
    base ++ ", inspired by: " ++ userRequest.getD ""
  else base

/-! ## Same-day admission scenario -/

/-- `n` same-day `generate_music` attempts, each of which succeeds at the
API level whenever it is admitted (so each admitted attempt tracks usage).
Returns the number of admitted attempts and the final counter. -/
def runSameDayAttempts (dailyBudget : ℚ) (today : Nat) :
    Nat → UsageCounter → Nat × UsageCounter
  | 0, s => (0, s)
  | n + 1, s =>
      let (admitted, s1) := checkBudget dailyBudget today s
      if admitted then
        let (cnt, s2) := runSameDayAttempts dailyBudget today n (trackUsage s1)
        (cnt + 1, s2)
      else
        let (cnt, s2) := runSameDayAttempts dailyBudget today n s1
        (cnt, s2)

/-! ## Budget gate lemmas -/

theorem costPerGeneration_pos : (0 : ℚ) < costPerGeneration := by
  norm_num [costPerGeneration]

theorem resetDailyUsageIfNeeded_cost_le (today : Nat) (s : UsageCounter)
    (bound : ℚ) (h0 : 0 ≤ bound) (hs : s.cost_estimate ≤ bound) :
    (resetDailyUsageIfNeeded today s).cost_estimate ≤ bound := by
  unfold resetDailyUsageIfNeeded
  split
  · exact h0
  · exact hs

theorem generateMusic_cost_invariant (dailyBudget : ℚ) (today : Nat)
    (outcome : GenerateOutcome) (timestamp prompt mood : String) (hour : Nat)
    (s : UsageCounter) (hb : 0 ≤ dailyBudget)
    (hs : s.cost_estimate ≤ dailyBudget + costPerGeneration) :
    (generateMusic dailyBudget today outcome timestamp prompt mood hour
      s).2.cost_estimate ≤ dailyBudget + costPerGeneration := by
  have hbc : (0 : ℚ) ≤ dailyBudget + costPerGeneration := by
    have := costPerGeneration_pos
    linarith
  have hreset := resetDailyUsageIfNeeded_cost_le today s _ hbc hs
  unfold generateMusic checkBudget
  by_cases hadm :
      (resetDailyUsageIfNeeded today s).cost_estimate < dailyBudget
  · simp only [hadm, decide_eq_true_eq, if_pos]
    cases outcome with
    | preError => exact hreset
    | ok r fetchOk =>
        simp only [trackUsage]
        linarith
  · simp only [decide_eq_true_eq, if_neg hadm]
    exact hreset

theorem runGenerations_cost_invariant (dailyBudget : ℚ)
    (hb : 0 ≤ dailyBudget) :
    ∀ (events : List GenEvent) (s : UsageCounter),
      s.cost_estimate ≤ dailyBudget + costPerGeneration →
      (runGenerations dailyBudget events s).cost_estimate ≤
        dailyBudget + costPerGeneration := by
  intro events
  induction events with
  | nil =>
      intro s hs
      simpa [runGenerations] using hs
  | cons e es ih =>
      intro s hs
      simp only [runGenerations, List.foldl_cons] at *
      exact ih _ (generateMusic_cost_invariant dailyBudget e.today e.outcome
        e.timestamp e.prompt e.mood e.hour s hb hs)

/-- C1: across any sequence of `generate_music` calls starting from a fresh
usage counter, each of which checks the budget first and only tracks usage
when the check passed and the HTTP call succeeded, the recorded
`cost_estimate` never exceeds `daily_budget + cost_per_generation`
(bounded overshoot). -/
theorem c1_bounded_overshoot (dailyBudget : ℚ) (startDay : Nat)
    (events : List GenEvent) (hb : 0 ≤ dailyBudget) :
    (runGenerations dailyBudget events (initUsage startDay)).cost_estimate ≤
      dailyBudget + costPerGeneration := by
  apply runGenerations_cost_invariant dailyBudget hb
  show (0 : ℚ) ≤ dailyBudget + costPerGeneration
  have := costPerGeneration_pos
  linarith

theorem c1_bounded_overshoot_witness :
    (0 : ℚ) ≤ 3 / 5 ∧
    (runGenerations (3 / 5)
      [ { today := 0, outcome := .preError, timestamp := "t0"
          prompt := "p", mood := "chill", hour := 12 } ]
      (initUsage 0)).cost_estimate ≤ 3 / 5 + costPerGeneration :=
  ⟨by norm_num, c1_bounded_overshoot (3 / 5) 0 _ (by norm_num)⟩

/-- C3: `_check_budget` lazily resets the counter (fresh counter dated
today when the stored date differs, unchanged otherwise) and admits iff
the cumulative cost is strictly below the daily budget; with budget 0.02
and per-generation cost 0.01, three same-day attempts admit exactly two
generations and the check after the two admitted generations rejects. -/
theorem c3_admission_semantics :
    (∀ (b : ℚ) (today : Nat) (s : UsageCounter), s.last_reset = today →
      checkBudget b today s = (decide (s.cost_estimate < b), s))
    ∧ (∀ (b : ℚ) (today : Nat) (s : UsageCounter), s.last_reset ≠ today →
      checkBudget b today s = (decide ((0 : ℚ) < b), initUsage today))
    ∧ (∀ (b : ℚ) (today : Nat) (s : UsageCounter),
      (checkBudget b today s).1 = true ↔
        (resetDailyUsageIfNeeded today s).cost_estimate < b)
    ∧ (runSameDayAttempts (1 / 50) 0 3 (initUsage 0)).1 = 2
    ∧ (checkBudget (1 / 50) 0
        (runSameDayAttempts (1 / 50) 0 2 (initUsage 0)).2).1 = false := by
  refine ⟨?_, ?_, ?_,
    by norm_num [runSameDayAttempts, checkBudget, resetDailyUsageIfNeeded,
      trackUsage, initUsage, costPerGeneration],
    by norm_num [runSameDayAttempts, checkBudget, resetDailyUsageIfNeeded,
      trackUsage, initUsage, costPerGeneration]⟩
  · intro b today s h
    simp [checkBudget, resetDailyUsageIfNeeded, h]
  · intro b today s h
    simp [checkBudget, resetDailyUsageIfNeeded, h, initUsage]
  · intro b today s
    simp [checkBudget]

theorem c3_admission_semantics_witness :
    checkBudget (3 / 5) 7 { generations := 2, cost_estimate := 1 / 50, last_reset := 7 } =
      (true, { generations := 2, cost_estimate := 1 / 50, last_reset := 7 }) := by
  have h := c3_admission_semantics.1 (3 / 5) 7
    { generations := 2, cost_estimate := 1 / 50, last_reset := 7 } rfl
  rw [h]
  norm_num

/-- C10: `get_usage_stats` clamps `generations_remaining` at zero for every
counter state, while `budget_remaining` in the same snapshot can be
negative (here: cost 0.03 against budget 0.02). -/
theorem c10_generations_remaining_clamped :
    (∀ (b : ℚ) (model : String) (today : Nat) (s : UsageCounter),
      0 ≤ (getUsageStats b model today s).generations_remaining)
    ∧ (getUsageStats (1 / 50) "v3_5" 0
        { generations := 3, cost_estimate := 3 / 100, last_reset := 0 }).budget_remaining
        = -1 / 100
    ∧ (getUsageStats (1 / 50) "v3_5" 0
        { generations := 3, cost_estimate := 3 / 100, last_reset := 0 }).generations_remaining
        = 0 := by
  refine ⟨?_,
    by norm_num [getUsageStats, resetDailyUsageIfNeeded],
    by norm_num [getUsageStats, resetDailyUsageIfNeeded, ratTrunc,
      costPerGeneration, Rat.floor]⟩
  intro b model today s
  simp only [getUsageStats]
  exact le_max_left 0 _

/-! ## Command parser claims -/

/-- C4: the parser on the spec's example messages: `!generate make it
jazzy` from alice is a generation request with prompt `make it jazzy` and
requester `alice`; `!mood chill` is a mood request tagged `chill`;
`!vote A` and `!vote a` record the same case-normalised token; a bare
`!generate` yields no request; unprefixed `hello` yields no command. -/
theorem c4_command_parser_examples :
    processChatMessage "!generate make it jazzy" "alice" =
      .ok (some (.genRequest "make it jazzy" "alice"))
    ∧ processChatMessage "!mood chill" "carol" =
      .ok (some (.moodRequest "chill" "carol"))
    ∧ processChatMessage "!vote A" "dave" = processChatMessage "!vote a" "dave"
    ∧ processChatMessage "!vote a" "dave" = .ok (some (.vote "A" "dave"))
    ∧ processChatMessage "!generate" "erin" = .ok none
    ∧ processChatMessage "hello" "frank" = .ok none := by
  decide

/-- C5: message processing is not total: on the bare prefix `!` (also `!`
followed only by whitespace) the stripped text passes the prefix check,
splits to an empty command list, and evaluating `command[0]` raises
`IndexError` instead of silently dropping the message. -/
theorem c5_bare_prefix_raises_index_error :
    processChatMessage "!" "bob" = .error .indexError
    ∧ processChatMessage "!   " "bob" = .error .indexError := by
  decide

/-! ## Result processing claims -/

theorem processGenerationResult_fetch_failed (r : SunoResponse)
    (ts prompt mood : String) :
    processGenerationResult r false ts prompt mood = none := by
  simp [processGenerationResult, downloadAudio]

/-- C2 (counterexample): a generation attempt whose 200 response has an
audio URL but whose download fails returns `None` — a failed outcome —
yet its usage was already tracked: the counter went from 0 to 1. -/
theorem c2_failed_download_still_tracked :
    (generateMusic (3 / 5) 0
      (.ok { audio_url := some "u", audio := none, url := none, title := none
             duration := none, id := none, tags := [], lyric := none } false)
      "ts" "p" "chill" 12 (initUsage 0)).1 = none
    ∧ (generateMusic (3 / 5) 0
      (.ok { audio_url := some "u", audio := none, url := none, title := none
             duration := none, id := none, tags := [], lyric := none } false)
      "ts" "p" "chill" 12 (initUsage 0)).2.generations = 1 := by
  constructor
  · norm_num [generateMusic, checkBudget, resetDailyUsageIfNeeded, initUsage,
      processGenerationResult_fetch_failed]
  · norm_num [generateMusic, checkBudget, resetDailyUsageIfNeeded, initUsage,
      trackUsage]

/-- C2 (amended): usage is tracked exactly when the admission check passed
and the generate HTTP call returned success — an attempt rejected by
budget or failing at or before the HTTP level never increments the
counter, and an admitted attempt with a 200 response increments it by
exactly one even when the subsequent result processing or download fails
(in which case `generate_music` still returns `None`). -/
theorem c2_tracking_iff_http_success (b : ℚ) (today : Nat)
    (outcome : GenerateOutcome) (ts p m : String) (hour : Nat)
    (s : UsageCounter) :
    (¬ (resetDailyUsageIfNeeded today s).cost_estimate < b →
      generateMusic b today outcome ts p m hour s =
        (none, resetDailyUsageIfNeeded today s))
    ∧ (outcome = .preError →
      generateMusic b today outcome ts p m hour s =
        (none, resetDailyUsageIfNeeded today s))
    ∧ (∀ (r : SunoResponse) (fetchOk : Bool), outcome = .ok r fetchOk →
        (resetDailyUsageIfNeeded today s).cost_estimate < b →
        (generateMusic b today outcome ts p m hour s).2 =
          trackUsage (resetDailyUsageIfNeeded today s))
    ∧ (trackUsage (resetDailyUsageIfNeeded today s)).generations =
        (resetDailyUsageIfNeeded today s).generations + 1 := by
  refine ⟨?_, ?_, ?_, rfl⟩
  · intro hadm
    unfold generateMusic checkBudget
    simp only [decide_eq_true_eq, if_neg hadm]
  · intro h
    subst h
    unfold generateMusic checkBudget
    by_cases hadm : (resetDailyUsageIfNeeded today s).cost_estimate < b
    · simp only [decide_eq_true_eq, if_pos hadm]
    · simp only [decide_eq_true_eq, if_neg hadm]
  · intro r fetchOk h hadm
    subst h
    unfold generateMusic checkBudget
    simp only [decide_eq_true_eq, if_pos hadm]

theorem c2_tracking_iff_http_success_witness :
    generateMusic (3 / 5) 0 .preError "t" "p" "chill" 12 (initUsage 0) =
      (none, initUsage 0) := by
  have h := (c2_tracking_iff_http_success (3 / 5) 0 .preError "t" "p"
    "chill" 12 (initUsage 0)).2.1 rfl
  simpa [resetDailyUsageIfNeeded, initUsage] using h

/-- C6: a completed generation is handed to the caller only as a locally
downloaded asset: a `some` result carries the filename the download wrote
and implies the asset fetch succeeded; a failed download makes
`_process_generation_result` — and hence `generate_music` — return
`None` even though the backend reported success. -/
theorem c6_download_before_handoff :
    (∀ (r : SunoResponse) (fetchOk : Bool) (ts p m : String)
        (res : MusicResult),
      processGenerationResult r fetchOk ts p m = some res →
      fetchOk = true ∧ res.filename = "music/cityPop_" ++ ts ++ ".mp3")
    ∧ (∀ (r : SunoResponse) (ts p m : String),
      processGenerationResult r false ts p m = none)
    ∧ (∀ (b : ℚ) (today : Nat) (r : SunoResponse) (ts p m : String)
        (hour : Nat) (s : UsageCounter),
      (generateMusic b today (.ok r false) ts p m hour s).1 = none) := by
  refine ⟨?_, fun r ts p m => processGenerationResult_fetch_failed r ts p m, ?_⟩
  · intro r fetchOk ts p m res h
    cases fetchOk
    · rw [processGenerationResult_fetch_failed] at h
      exact absurd h (by simp)
    · refine ⟨rfl, ?_⟩
      unfold processGenerationResult downloadAudio at h
      simp only [if_true] at h
      split at h
      · simp only [Option.some.injEq] at h
        rw [← h]
      · exact absurd h (by simp)
  · intro b today r ts p m hour s
    unfold generateMusic checkBudget
    by_cases hadm : (resetDailyUsageIfNeeded today s).cost_estimate < b
    · simp only [decide_eq_true_eq, if_pos hadm,
        processGenerationResult_fetch_failed]
    · simp only [decide_eq_true_eq, if_neg hadm]

theorem c6_download_before_handoff_witness :
    true = true ∧
    ({ filename := "music/cityPop_ts.mp3", title := "My Title", prompt := "p"
       mood := "chill", duration := 180, suno_id := none, tags := []
       lyrics := "" } : MusicResult).filename = "music/cityPop_" ++ "ts" ++ ".mp3" :=
  c6_download_before_handoff.1
    { audio_url := some "u", audio := none, url := none, title := some "My Title"
      duration := none, id := none, tags := [], lyric := none }
    true "ts" "p" "chill" _ (by decide)

/-! ## Poll loop lemmas -/

theorem waitForGeneration_timeout (backend : Nat → VideoPoll)
    (maxWait k elapsed : Nat) (h : maxWait ≤ elapsed) :
    waitForGeneration backend maxWait k elapsed = (none, elapsed) := by
  unfold waitForGeneration
  rw [dif_neg (by omega)]

theorem waitForGeneration_elapsed_lt (backend : Nat → VideoPoll)
    (maxWait : Nat) :
    ∀ (fuel k elapsed : Nat), maxWait - elapsed ≤ fuel →
      elapsed < maxWait + 10 →
      (waitForGeneration backend maxWait k elapsed).2 < maxWait + 10 := by
  intro fuel
  induction fuel with
  | zero =>
      intro k elapsed hfuel he
      rw [waitForGeneration_timeout backend maxWait k elapsed (by omega)]
      exact he
  | succ n ih =>
      intro k elapsed hfuel he
      by_cases h : elapsed < maxWait
      · unfold waitForGeneration
        rw [dif_pos h]
        cases backend k with
        | completed r => exact (by omega : elapsed < maxWait + 10)
        | failed => exact (by omega : elapsed < maxWait + 10)
        | processing => exact ih (k + 1) (elapsed + 10) (by omega) (by omega)
        | httpError => exact ih (k + 1) (elapsed + 10) (by omega) (by omega)
        | exc => exact ih (k + 1) (elapsed + 10) (by omega) (by omega)
      · rw [waitForGeneration_timeout backend maxWait k elapsed (by omega)]
        exact he

theorem waitForGeneration_always_pending (backend : Nat → VideoPoll)
    (maxWait : Nat) (hb : ∀ j, backend j = .processing) :
    ∀ (fuel k elapsed : Nat), maxWait - elapsed ≤ fuel →
      (waitForGeneration backend maxWait k elapsed).1 = none := by
  intro fuel
  induction fuel with
  | zero =>
      intro k elapsed hfuel
      rw [waitForGeneration_timeout backend maxWait k elapsed (by omega)]
  | succ n ih =>
      intro k elapsed hfuel
      by_cases h : elapsed < maxWait
      · unfold waitForGeneration
        rw [dif_pos h, hb k]
        exact ih (k + 1) (elapsed + 10) (by omega)
      · rw [waitForGeneration_timeout backend maxWait k elapsed (by omega)]

theorem waitForGeneration_eventually_terminal (backend : Nat → VideoPoll)
    (maxWait : Nat) :
    ∀ (n k elapsed : Nat),
      (∀ j, j < n → backend (k + j) = .processing) →
      elapsed + 10 * n < maxWait →
      (∀ r, backend (k + n) = .completed r →
        waitForGeneration backend maxWait k elapsed = (some r, elapsed + 10 * n))
      ∧ (backend (k + n) = .failed →
        waitForGeneration backend maxWait k elapsed = (none, elapsed + 10 * n)) := by
  intro n
  induction n with
  | zero =>
      intro k elapsed _ hlt
      constructor
      · intro r hr
        unfold waitForGeneration
        rw [dif_pos (by omega)]
        simp only [Nat.add_zero] at hr
        rw [hr]
        simp
      · intro hr
        unfold waitForGeneration
        rw [dif_pos (by omega)]
        simp only [Nat.add_zero] at hr
        rw [hr]
        simp
  | succ n ih =>
      intro k elapsed hpend hlt
      have h0 : backend k = .processing := by
        have := hpend 0 (by omega)
        simpa using this
      have hshift : ∀ j, j < n → backend (k + 1 + j) = .processing := by
        intro j hj
        have := hpend (j + 1) (by omega)
        have harith : k + (j + 1) = k + 1 + j := by omega
        rwa [harith] at this
      have hlt2 : elapsed + 10 + 10 * n < maxWait := by omega
      have harith2 : k + (n + 1) = k + 1 + n := by omega
      have harith3 : elapsed + 10 + 10 * n = elapsed + 10 * (n + 1) := by ring
      have ihres := ih (k + 1) (elapsed + 10) hshift hlt2
      constructor
      · intro r hr
        unfold waitForGeneration
        rw [dif_pos (by omega), h0]
        rw [harith2] at hr
        rw [ihres.1 r hr, harith3]
      · intro hr
        unfold waitForGeneration
        rw [dif_pos (by omega), h0]
        rw [harith2] at hr
        rw [ihres.2 hr, harith3]

theorem waitForCompletion_timeout (backend : Nat → ImagePoll)
    (maxWait k elapsed : Nat) (h : maxWait ≤ elapsed) :
    waitForCompletion backend maxWait k elapsed = (none, elapsed) := by
  unfold waitForCompletion
  rw [dif_neg (by omega)]

theorem waitForCompletion_elapsed_lt (backend : Nat → ImagePoll)
    (maxWait : Nat) :
    ∀ (fuel k elapsed : Nat), maxWait - elapsed ≤ fuel →
      elapsed < maxWait + 5 →
      (waitForCompletion backend maxWait k elapsed).2 < maxWait + 5 := by
  intro fuel
  induction fuel with
  | zero =>
      intro k elapsed hfuel he
      rw [waitForCompletion_timeout backend maxWait k elapsed (by omega)]
      exact he
  | succ n ih =>
      intro k elapsed hfuel he
      by_cases h : elapsed < maxWait
      · unfold waitForCompletion
        rw [dif_pos h]
        cases backend k with
        | imageReady d => exact (by omega : elapsed < maxWait + 5)
        | pending => exact ih (k + 1) (elapsed + 2) (by omega) (by omega)
        | exc => exact ih (k + 1) (elapsed + 5) (by omega) (by omega)
      · rw [waitForCompletion_timeout backend maxWait k elapsed (by omega)]
        exact he

theorem waitForCompletion_always_pending (backend : Nat → ImagePoll)
    (maxWait : Nat) (hb : ∀ j, backend j = .pending) :
    ∀ (fuel k elapsed : Nat), maxWait - elapsed ≤ fuel →
      (waitForCompletion backend maxWait k elapsed).1 = none := by
  intro fuel
  induction fuel with
  | zero =>
      intro k elapsed hfuel
      rw [waitForCompletion_timeout backend maxWait k elapsed (by omega)]
  | succ n ih =>
      intro k elapsed hfuel
      by_cases h : elapsed < maxWait
      · unfold waitForCompletion
        rw [dif_pos h, hb k]
        exact ih (k + 1) (elapsed + 2) (by omega)
      · rw [waitForCompletion_timeout backend maxWait k elapsed (by omega)]

theorem waitForCompletion_eventually_ready (backend : Nat → ImagePoll)
    (maxWait : Nat) :
    ∀ (n k elapsed : Nat),
      (∀ j, j < n → backend (k + j) = .pending) →
      elapsed + 2 * n < maxWait →
      ∀ d, backend (k + n) = .imageReady d →
        waitForCompletion backend maxWait k elapsed = (some d, elapsed + 2 * n) := by
  intro n
  induction n with
  | zero =>
      intro k elapsed _ hlt d hd
      unfold waitForCompletion
      rw [dif_pos (by omega)]
      simp only [Nat.add_zero] at hd
      rw [hd]
      simp
  | succ n ih =>
      intro k elapsed hpend hlt d hd
      have h0 : backend k = .pending := by
        have := hpend 0 (by omega)
        simpa using this
      have hshift : ∀ j, j < n → backend (k + 1 + j) = .pending := by
        intro j hj
        have := hpend (j + 1) (by omega)
        have harith : k + (j + 1) = k + 1 + j := by omega
        rwa [harith] at this
      have harith2 : k + (n + 1) = k + 1 + n := by omega
      rw [harith2] at hd
      have harith3 : elapsed + 2 + 2 * n = elapsed + 2 * (n + 1) := by ring
      unfold waitForCompletion
      rw [dif_pos (by omega), h0]
      rw [ih (k + 1) (elapsed + 2) hshift (by omega) d hd, harith3]

/-- C7: both job poll loops reach a terminal outcome within `maxWait` plus
one poll interval of submission (the intervals are 10 s for video jobs
and 2 s / 5 s-after-exception for image jobs), for every backend
behaviour: elapsed time at return stays below `maxWait` plus one
interval; once `maxWait` has elapsed without a terminal state the outcome
is the timed-out `None`; an always-pending backend yields `None`; a
backend that reports success or failure after `n` pending polls inside
the wait budget yields that terminal outcome at elapsed time `10 * n`
(respectively `2 * n`). -/
theorem c7_poll_loops_reach_terminal :
    (∀ (backend : Nat → VideoPoll) (maxWait k elapsed : Nat),
      elapsed < maxWait + 10 →
      (waitForGeneration backend maxWait k elapsed).2 < maxWait + 10)
    ∧ (∀ (backend : Nat → VideoPoll) (maxWait k elapsed : Nat),
      maxWait ≤ elapsed →
      waitForGeneration backend maxWait k elapsed = (none, elapsed))
    ∧ (∀ (backend : Nat → VideoPoll) (maxWait k elapsed : Nat),
      (∀ j, backend j = .processing) →
      (waitForGeneration backend maxWait k elapsed).1 = none)
    ∧ (∀ (backend : Nat → VideoPoll) (maxWait n k elapsed : Nat) (r : String),
      (∀ j, j < n → backend (k + j) = .processing) →
      backend (k + n) = .completed r →
      elapsed + 10 * n < maxWait →
      waitForGeneration backend maxWait k elapsed = (some r, elapsed + 10 * n))
    ∧ (∀ (backend : Nat → VideoPoll) (maxWait n k elapsed : Nat),
      (∀ j, j < n → backend (k + j) = .processing) →
      backend (k + n) = .failed →
      elapsed + 10 * n < maxWait →
      waitForGeneration backend maxWait k elapsed = (none, elapsed + 10 * n))
    ∧ (∀ (backend : Nat → ImagePoll) (maxWait k elapsed : Nat),
      elapsed < maxWait + 5 →
      (waitForCompletion backend maxWait k elapsed).2 < maxWait + 5)
    ∧ (∀ (backend : Nat → ImagePoll) (maxWait k elapsed : Nat),
      maxWait ≤ elapsed →
      waitForCompletion backend maxWait k elapsed = (none, elapsed))
    ∧ (∀ (backend : Nat → ImagePoll) (maxWait k elapsed : Nat),
      (∀ j, backend j = .pending) →
      (waitForCompletion backend maxWait k elapsed).1 = none)
    ∧ (∀ (backend : Nat → ImagePoll) (maxWait n k elapsed : Nat) (d : String),
      (∀ j, j < n → backend (k + j) = .pending) →
      backend (k + n) = .imageReady d →
      elapsed + 2 * n < maxWait →
      waitForCompletion backend maxWait k elapsed = (some d, elapsed + 2 * n)) := by
  refine ⟨?_, ?_, ?_, ?_, ?_, ?_, ?_, ?_, ?_⟩
  · intro backend maxWait k elapsed he
    exact waitForGeneration_elapsed_lt backend maxWait (maxWait - elapsed)
      k elapsed le_rfl he
  · intro backend maxWait k elapsed h
    exact waitForGeneration_timeout backend maxWait k elapsed h
  · intro backend maxWait k elapsed hb
    exact waitForGeneration_always_pending backend maxWait hb
      (maxWait - elapsed) k elapsed le_rfl
  · intro backend maxWait n k elapsed r hpend hr hlt
    exact (waitForGeneration_eventually_terminal backend maxWait n k elapsed
      hpend hlt).1 r hr
  · intro backend maxWait n k elapsed hpend hr hlt
    exact (waitForGeneration_eventually_terminal backend maxWait n k elapsed
      hpend hlt).2 hr
  · intro backend maxWait k elapsed he
    exact waitForCompletion_elapsed_lt backend maxWait (maxWait - elapsed)
      k elapsed le_rfl he
  · intro backend maxWait k elapsed h
    exact waitForCompletion_timeout backend maxWait k elapsed h
  · intro backend maxWait k elapsed hb
    exact waitForCompletion_always_pending backend maxWait hb
      (maxWait - elapsed) k elapsed le_rfl
  · intro backend maxWait n k elapsed d hpend hd hlt
    exact waitForCompletion_eventually_ready backend maxWait n k elapsed
      hpend hlt d hd

theorem c7_poll_loops_reach_terminal_witness :
    waitForGeneration (fun _ => VideoPoll.completed "clip") 300 0 0 =
      (some "clip", 0)
    ∧ (waitForCompletion (fun _ => ImagePoll.pending) 6 0 0).1 = none := by
  constructor
  · have h := c7_poll_loops_reach_terminal.2.2.2.1
      (fun _ => VideoPoll.completed "clip") 300 0 0 0 "clip"
      (fun j hj => absurd hj (Nat.not_lt_zero j)) rfl (by omega)
    simpa using h
  · exact c7_poll_loops_reach_terminal.2.2.2.2.2.2.2.1
      (fun _ => ImagePoll.pending) 6 0 0 (fun _ => rfl)

/-! ## Mood fallback claims -/

theorem str_append_ne_empty_right (a b : String) (hb : b ≠ "") :
    a ++ b ≠ "" := by
  intro h
  apply hb
  have hd := congrArg String.data h
  simp only [String.data_append] at hd
  rcases List.append_eq_nil.mp hd with ⟨h1, h2⟩
  cases b
  simp_all

theorem str_append_ne_empty_left (a b : String) (ha : a ≠ "") :
    a ++ b ≠ "" := by
  intro h
  apply ha
  have hd := congrArg String.data h
  simp only [String.data_append] at hd
  rcases List.append_eq_nil.mp hd with ⟨h1, h2⟩
  cases a
  simp_all

theorem timeSuffix_ne_empty (hour : Nat) : timeSuffix hour ≠ "" := by
  unfold timeSuffix
  split
  · decide
  · split
    · decide
    · split
      · decide
      · decide

theorem moodPrompts_lookup_head_ne (mood : String) (ps : List String)
    (h : moodPrompts.lookup mood = some ps) : ps.headD "" ≠ "" := by
  simp only [moodPrompts, List.lookup] at h
  repeat' split at h
  all_goals first
    | (injection h with h2; rw [← h2]; decide)
    | (injection h)

/-- C8: prompt construction is total and falls back to one designated
default for every mood outside the known tables, instead of failing:
`_enhance_city_pop_prompt` builds the same prompt an unknown mood as it
does for the designated `chill` default, `create_mood_background` uses
its fixed default base prompt, and both produce a non-empty (well-formed)
prompt for every input mood string. -/
theorem c8_unknown_mood_fallback :
    (∀ (base mood : String) (hour : Nat),
      cityPopTemplates.lookup mood = none →
      enhanceCityPopPrompt base mood hour =
        enhanceCityPopPrompt base "chill" hour)
    ∧ (∀ (mood : String) (req : Option String),
      moodPrompts.lookup mood = none →
      createMoodBackgroundPrompt mood req =
        (if strTruthy req then
          defaultBackgroundPrompt ++ ", inspired by: " ++ req.getD ""
        else defaultBackgroundPrompt))
    ∧ (∀ (base mood : String) (hour : Nat),
      enhanceCityPopPrompt base mood hour ≠ "")
    ∧ (∀ (mood : String) (req : Option String),
      createMoodBackgroundPrompt mood req ≠ "") := by
  refine ⟨?_, ?_, ?_, ?_⟩
  · intro base mood hour h
    simp only [enhanceCityPopPrompt, h]
    rfl
  · intro mood req h
    simp only [createMoodBackgroundPrompt, h]
  · intro base mood hour
    simp only [enhanceCityPopPrompt]
    exact str_append_ne_empty_right _ _ (timeSuffix_ne_empty hour)
  · intro mood req
    simp only [createMoodBackgroundPrompt]
    split
    · exact str_append_ne_empty_left _ _
        (str_append_ne_empty_right _ _ (by decide))
    · cases hl : moodPrompts.lookup mood with
      | none => decide
      | some ps => exact moodPrompts_lookup_head_ne mood ps hl

theorem c8_unknown_mood_fallback_witness :
    enhanceCityPopPrompt "" "general" 3 = enhanceCityPopPrompt "" "chill" 3
    ∧ createMoodBackgroundPrompt "general" none = defaultBackgroundPrompt := by
  constructor
  · exact c8_unknown_mood_fallback.1 "" "general" 3 (by decide)
  · have h := c8_unknown_mood_fallback.2.1 "general" none (by decide)
    simpa [strTruthy] using h

/-! ## Status loop claims -/

/-- C9 (counterexample): with the queue size and pending-request sources
healthy (3 and 2) and only the playback-status source failing, the loop
iteration emits no snapshot at all — the fields from the healthy sources
are not reported. -/
theorem c9_source_failure_drops_whole_snapshot :
    (statusLoopIteration (σ := Unit) (fun _ => .ok 3) (fun _ => .ok 2)
      (fun _ => .error ()) "t0" ()).2.1 = none := rfl

/-- C9 (amended): each status loop iteration is read-only (the shared
state is returned unchanged) and the loop always continues, but snapshot
emission is all-or-nothing: all three sources healthy emit the full
snapshot, while a failure of any one source discards the whole
iteration's snapshot instead of reporting the remaining fields with the
missing one unknown. -/
theorem c9_status_iteration_read_only_all_or_nothing (σ : Type)
    (getQueueSize getPending : σ → Except Unit Nat)
    (getStream : σ → Except Unit String) (uptime : String) (st : σ) :
    ((statusLoopIteration getQueueSize getPending getStream uptime st).1 = st)
    ∧ ((statusLoopIteration getQueueSize getPending getStream uptime st).2.2
        = true)
    ∧ (∀ (q p : Nat) (sst : String),
      getQueueSize st = .ok q → getPending st = .ok p →
      getStream st = .ok sst →
      (statusLoopIteration getQueueSize getPending getStream uptime st).2.1 =
        some { queue_size := q, generation_requests := p
               stream_status := sst, uptime := uptime })
    ∧ ((getQueueSize st = .error () ∨ getPending st = .error () ∨
        getStream st = .error ()) →
      (statusLoopIteration getQueueSize getPending getStream uptime st).2.1 =
        none) := by
  refine ⟨?_, ?_, ?_, ?_⟩
  · unfold statusLoopIteration
    cases getQueueSize st <;> cases getPending st <;> cases getStream st <;> rfl
  · unfold statusLoopIteration
    cases getQueueSize st <;> cases getPending st <;> cases getStream st <;> rfl
  · intro q p sst hq hp hs
    unfold statusLoopIteration
    rw [hq, hp, hs]
  · intro hfail
    unfold statusLoopIteration
    cases hq : getQueueSize st <;> cases hp : getPending st <;>
      cases hs : getStream st <;> try rfl
    rcases hfail with h | h | h
    · rw [hq] at h
      exact absurd h (by simp)
    · rw [hp] at h
      exact absurd h (by simp)
    · rw [hs] at h
      exact absurd h (by simp)

theorem c9_status_iteration_witness :
    (statusLoopIteration (σ := Unit) (fun _ => .ok 3) (fun _ => .ok 2)
      (fun _ => .ok "live") "t1" ()).2.1 =
      some { queue_size := 3, generation_requests := 2
             stream_status := "live", uptime := "t1" } :=
  (c9_status_iteration_read_only_all_or_nothing Unit (fun _ => .ok 3)
    (fun _ => .ok 2) (fun _ => .ok "live") "t1" ()).2.2.1 3 2 "live"
    rfl rfl rfl

end StreamsForLovers
